import Mathlib

/-!
Shallow embedding of the SASL relay module (`m_sasl.c`) of ircd-hybrid-sasl.

The module keeps a fixed-capacity table of in-progress SASL sessions,
relays client `AUTHENTICATE` traffic to a services peer over an ENCAP
link, and consumes services-originated `SASL`, `SVSLOGIN` and `MECHLIST`
messages.  We model the process-wide mutable state (session table, client
records, advertised `sasl` capability) as an explicit state record, and
each C handler as a function from state and arguments to a new state plus
a list of emissions (numerics to clients, lines to the client, lines to
the server mesh).  Strings are unbounded (we do not model `strlcpy`
truncation); client records are keyed by an abstract `cid` standing for
the C `struct Client *` pointer identity.
-/

namespace Sasl

/-- `SASL_MAX_SESSIONS` from m_sasl.c. -/
def SASL_MAX_SESSIONS : Nat := 256

/-- `SASL_MAX_MESSAGES` from m_sasl.c. -/
def SASL_MAX_MESSAGES : Nat := 20

/-- `SASL_MAX_FAILURES` from m_sasl.c. -/
def SASL_MAX_FAILURES : Nat := 3

/-- The relevant fields of the host daemon's `struct Client`.  `cid` is an
abstract stand-in for pointer identity; `id` is the server-assigned UID
(empty string = unassigned, mirroring `id[0] == '\0'`). -/
structure Client where
  cid : Nat
  name : String
  id : String
  username : String
  host : String
  sockhost : String
  account : String
  myConnect : Bool
  hasCapSasl : Bool
  isService : Bool
  isServer : Bool
deriving DecidableEq

/-- `struct sasl_session`.  `client = none` models a free slot
(`client == NULL`); `agent = ""` models `agent[0] == '\0'`. -/
structure Session where
  client : Option Nat
  agent : String
  messages : Nat
  failures : Nat
  start_time : Nat
  complete : Bool
deriving DecidableEq

/-- A zeroed session slot (the result of `memset(.., 0, ..)`). -/
def Session.cleared : Session :=
  { client := none, agent := "", messages := 0, failures := 0
    start_time := 0, complete := false }

/-- Observable emissions of a handler invocation, in order. -/
inductive Output where
  | numeric (targetCid : Nat) (code : Nat) (body : String)
  | toClient (targetCid : Nat) (line : String)
  | toServers (line : String)
deriving DecidableEq

/-- The process-wide mutable state read and written by the module. -/
structure IrcState where
  sessions : List Session
  clients : List Client
  capRegistered : Bool
  capMechs : Option String
deriving DecidableEq

/-- `me.id`, the local server's id, a configuration constant. -/
def meId : String := "00A"

/-- `parv[i]` with the C convention that we only read present arguments;
absent arguments are represented by the empty string (every read in the
handlers is guarded by a `parc` test exactly as in the C source). -/
def arg (parv : List String) (i : Nat) : String :=
  match parv.get? i with
  | some s => s
  | none => ""

/-- Look up a client by pointer identity (handler `source`/`target`
arguments that the dispatcher passes by pointer). -/
def findClientByCid (cs : List Client) (cid : Nat) : Option Client :=
  cs.find? (fun c => c.cid = cid)

/-- `hash_find_id`: resolve a UID string to a client.  Clients without an
assigned UID are not in the id hash, and the empty string never resolves. -/
def hash_find_id (cs : List Client) (uid : String) : Option Client :=
  if uid = "" then none else cs.find? (fun c => c.id = uid ∧ c.id ≠ "")

/-- Apply an update to every client record with the given identity
(at most one in well-formed states). -/
def updateClient (cs : List Client) (cid : Nat) (f : Client → Client) : List Client :=
  cs.map (fun c => if c.cid = cid then f c else c)

/-- The scan loop of `sasl_find_session`, carrying the current index. -/
def findSessionAux (cid : Nat) : List Session → Nat → Option (Nat × Session)
  | [], _ => none
  | s :: rest, i =>
    if s.client = some cid then some (i, s) else findSessionAux cid rest (i + 1)

/-- `sasl_find_session`: return the index and contents of the slot holding
the given client's session, if any. -/
def sasl_find_session (sessions : List Session) (cid : Nat) : Option (Nat × Session) :=
  findSessionAux cid sessions 0

/-- The slot `sasl_new_session` initializes: zeroed, then `client` and
`start_time` set. -/
def freshSession (cid : Nat) (now : Nat) : Session :=
  { Session.cleared with client := some cid, start_time := now }

/-- The scan loop of `sasl_new_session`: find the first free slot, zero it
and bind it to `cid`; `none` when the table is full. -/
def newSessionAux (cid : Nat) (now : Nat) : List Session → Option (List Session)
  | [] => none
  | s :: rest =>
    if s.client = none then some (freshSession cid now :: rest)
    else (newSessionAux cid now rest).map (fun l => s :: l)

/-- `sasl_new_session` (the returned table already contains the new slot). -/
def sasl_new_session (sessions : List Session) (cid : Nat) (now : Nat) :
    Option (List Session) :=
  newSessionAux cid now sessions

/-- The `:<me> ENCAP * SASL <uid> <agent> D A` abort line. -/
def saslAbortLine (uid agent : String) : String :=
  ":" ++ meId ++ " ENCAP * SASL " ++ uid ++ " " ++ agent ++ " D A"

/-- The `:<me> ENCAP * SASL <uid> * H <host> <sockhost>` host-info line. -/
def saslHostLine (uid host sockhost : String) : String :=
  ":" ++ meId ++ " ENCAP * SASL " ++ uid ++ " * H " ++ host ++ " " ++ sockhost

/-- The `:<me> ENCAP * SASL <uid> * S <mech>` mechanism-start line. -/
def saslStartLine (uid mech : String) : String :=
  ":" ++ meId ++ " ENCAP * SASL " ++ uid ++ " * S " ++ mech

/-- The `:<me> ENCAP * SASL <uid> <agent-or-*> C <data>` continuation line. -/
def saslContLine (uid agent data : String) : String :=
  ":" ++ meId ++ " ENCAP * SASL " ++ uid ++ " " ++ agent ++ " C " ++ data

/-- Body of numeric 904 `:SASL authentication failed`. -/
def failedBody (nick : String) : String :=
  nick ++ " :SASL authentication failed"

/-- Body of numeric 904 `:SASL message limit exceeded`. -/
def limitBody (nick : String) : String :=
  nick ++ " :SASL message limit exceeded"

/-- Body of numeric 906 `:SASL authentication aborted`. -/
def abortedBody (nick : String) : String :=
  nick ++ " :SASL authentication aborted"

/-- Body of numeric 900. -/
def loggedInBody (c : Client) : String :=
  c.name ++ " " ++ c.name ++ "!" ++ c.username ++ "@" ++ c.host ++ " " ++
    c.account ++ " :You are now logged in as " ++ c.account

/-- Body of numeric 903 `:SASL authentication successful`. -/
def successBody (nick : String) : String :=
  nick ++ " :SASL authentication successful"

/-- `cap_unregister("sasl")`. -/
def cap_unregister (st : IrcState) : IrcState :=
  { st with capRegistered := false, capMechs := none }

/-- `cap_register(CAP_SASL, "sasl", mechs)`; `none` models a NULL
mechanism string (empty advertised mechanism set). -/
def cap_register (st : IrcState) (mechs : Option String) : IrcState :=
  { st with capRegistered := true, capMechs := mechs }

/-- The `AUTHENTICATE *` abort branch of `mr_authenticate`. -/
def authAbort (st : IrcState) (src : Client) : IrcState × List Output :=
  match sasl_find_session st.sessions src.cid with
  | some (i, sess) =>
    ({ st with sessions := st.sessions.set i Session.cleared },
      (if sess.agent ≠ "" ∧ src.id ≠ "" then
        [Output.toServers (saslAbortLine src.id sess.agent)]
      else []) ++ [Output.numeric src.cid 906 (abortedBody src.name)])
  | none =>
    (st, [Output.numeric src.cid 906 (abortedBody src.name)])

/-- The new-session branch of `mr_authenticate` (mechanism selection):
allocate a slot, then emit the `H` and `S` lines; numeric 904 when the
table is full. -/
def authStart (st : IrcState) (src : Client) (param : String) (now : Nat) :
    IrcState × List Output :=
  match sasl_new_session st.sessions src.cid now with
  | none =>
    (st, [Output.numeric src.cid 904 (failedBody src.name)])
  | some sessions1 =>
    ({ st with sessions := sessions1 },
      [Output.toServers (saslHostLine src.id src.host src.sockhost),
       Output.toServers (saslStartLine src.id param)])

/-- The continuation branch of `mr_authenticate`: bump `messages`; over the
cap emit 904 (`message limit exceeded`), a `D A` if an agent is bound, and
clear the slot; otherwise relay the data as a `C` line. -/
def authCont (st : IrcState) (src : Client) (param : String)
    (i : Nat) (sess : Session) : IrcState × List Output :=
  if sess.messages + 1 > SASL_MAX_MESSAGES then
    ({ st with sessions := st.sessions.set i Session.cleared },
      [Output.numeric src.cid 904 (limitBody src.name)] ++
      (if sess.agent ≠ "" then [Output.toServers (saslAbortLine src.id sess.agent)]
       else []))
  else
    ({ st with sessions := st.sessions.set i { sess with messages := sess.messages + 1 } },
      [Output.toServers (saslContLine src.id
        (if sess.agent ≠ "" then sess.agent else "*") param)])

/-- The UID assignment of `mr_authenticate`: if the source still has no
UID, it receives the one produced by the host's `uid_get` loop. -/
def authSrc (src0 : Client) (freshUid : String) : Client :=
  if src0.id = "" then { src0 with id := freshUid } else src0

/-- The client-table effect of the UID assignment (`hash_add_id`). -/
def authClients (st : IrcState) (src0 : Client) (srcCid : Nat) (freshUid : String) :
    List Client :=
  if src0.id = "" then updateClient st.clients srcCid (fun c => { c with id := freshUid })
  else st.clients

/-- `mr_authenticate`: the pre-registration `AUTHENTICATE` handler.
`param` is `parv[1]`; `freshUid` is the value the host's UID generator
produces if the client still lacks a UID; `now` is the monotonic clock. -/
def mr_authenticate (st : IrcState) (srcCid : Nat) (param : String)
    (freshUid : String) (now : Nat) : IrcState × List Output :=
  match findClientByCid st.clients srcCid with
  | none => (st, [])
  | some src0 =>
    if src0.hasCapSasl = false then (st, [])
    else if param = "*" then authAbort st src0
    else
      match sasl_find_session st.sessions srcCid with
      | none =>
        authStart { st with clients := authClients st src0 srcCid freshUid }
          (authSrc src0 freshUid) param now
      | some (i, sess) =>
        authCont { st with clients := authClients st src0 srcCid freshUid }
          (authSrc src0 freshUid) param i sess

/-- The `C` (client data) case of `me_sasl`. -/
def meSaslC (st : IrcState) (parv : List String) (target : Client) :
    IrcState × List Output :=
  if parv.length < 5 then (st, [])
  else
    match sasl_find_session st.sessions target.cid with
    | some (i, sess) =>
      if sess.agent = "" then
        ({ st with sessions := st.sessions.set i { sess with agent := arg parv 1 } },
          [Output.toClient target.cid ("AUTHENTICATE " ++ arg parv 4)])
      else (st, [Output.toClient target.cid ("AUTHENTICATE " ++ arg parv 4)])
    | none => (st, [Output.toClient target.cid ("AUTHENTICATE " ++ arg parv 4)])

/-- The success arm of the `D` case: 900 and 903 are emitted
unconditionally; the session, when present, is marked complete and then
zeroed in the same step. -/
def meSaslDSuccess (st : IrcState) (target : Client) : IrcState × List Output :=
  match sasl_find_session st.sessions target.cid with
  | some (i, sess) =>
    ({ st with sessions := (st.sessions.set i { sess with complete := true }).set i Session.cleared },
      [Output.numeric target.cid 900 (loggedInBody target),
       Output.numeric target.cid 903 (successBody target.name)])
  | none =>
    (st, [Output.numeric target.cid 900 (loggedInBody target),
          Output.numeric target.cid 903 (successBody target.name)])

/-- The failure arm of the `D` case: 904 is emitted in every sub-case; a
present session has its failures counter bumped and is cleared at the
cap. -/
def meSaslDFail (st : IrcState) (target : Client) : IrcState × List Output :=
  match sasl_find_session st.sessions target.cid with
  | some (i, sess) =>
    if sess.failures + 1 ≥ SASL_MAX_FAILURES then
      ({ st with sessions := (st.sessions.set i { sess with failures := sess.failures + 1 }).set i Session.cleared },
        [Output.numeric target.cid 904 (failedBody target.name)])
    else
      ({ st with sessions := st.sessions.set i { sess with failures := sess.failures + 1 } },
        [Output.numeric target.cid 904 (failedBody target.name)])
  | none =>
    (st, [Output.numeric target.cid 904 (failedBody target.name)])

/-- The `D` (done) case of `me_sasl`: `parv[4][0] == 'S'` selects success;
anything else — including an absent `data` argument — is a failure. -/
def meSaslD (st : IrcState) (parv : List String) (target : Client) :
    IrcState × List Output :=
  if 5 ≤ parv.length ∧ (arg parv 4).toList.head? = some 'S' then meSaslDSuccess st target
  else meSaslDFail st target

/-- The `L` (login) case of `me_sasl`: copy `data` into the target's
account field. -/
def meSaslL (st : IrcState) (parv : List String) (target : Client) :
    IrcState × List Output :=
  if 5 ≤ parv.length then
    ({ st with clients :=
        updateClient st.clients target.cid (fun c => { c with account := arg parv 4 }) },
      [])
  else (st, [])

/-- The `M` (mechanism list) case of `me_sasl`: re-register the `sasl`
capability with the supplied list (`NULL` when absent or empty). -/
def meSaslM (st : IrcState) (parv : List String) : IrcState × List Output :=
  (cap_register (cap_unregister st)
    (if 5 ≤ parv.length ∧ arg parv 4 ≠ "" then some (arg parv 4) else none), [])

/-- `me_sasl`: the ENCAP `SASL` handler.  `parv[1]` = agent UID, `parv[2]`
= target UID, `parv[3]` = type, `parv[4]` = optional data.  An unknown or
non-local target drops the message. -/
def me_sasl (st : IrcState) (parv : List String) : IrcState × List Output :=
  match hash_find_id st.clients (arg parv 2) with
  | none => (st, [])
  | some target =>
    if target.myConnect = false then (st, [])
    else if (arg parv 3).toList.head? = some 'C' then meSaslC st parv target
    else if (arg parv 3).toList.head? = some 'D' then meSaslD st parv target
    else if (arg parv 3).toList.head? = some 'L' then meSaslL st parv target
    else if (arg parv 3).toList.head? = some 'M' then meSaslM st parv
    else (st, [])

/-- The field writes of `me_svslogin`, in source order (account, vhost,
ident); the nick argument `parv[2]` is never written. -/
def svsloginWrite (parv : List String) (c : Client) : Client :=
  let c1 := if 6 ≤ parv.length ∧ arg parv 5 ≠ "*" then { c with account := arg parv 5 } else c
  let c2 := if 5 ≤ parv.length ∧ arg parv 4 ≠ "*" then { c1 with host := arg parv 4 } else c1
  if 4 ≤ parv.length ∧ arg parv 3 ≠ "*" then { c2 with username := arg parv 3 } else c2

/-- `me_svslogin`: the ENCAP `SVSLOGIN` handler.  `parv[1]` = target UID,
`parv[2]` = nick (ignored), `parv[3]` = ident, `parv[4]` = vhost,
`parv[5]` = account; `"*"` or absence leaves a field unchanged.  The
origin must be a server or a service-flagged client; the target need only
be known (there is no locality test). -/
def me_svslogin (st : IrcState) (srcCid : Nat) (parv : List String) :
    IrcState × List Output :=
  match findClientByCid st.clients srcCid with
  | none => (st, [])
  | some src =>
    if src.isService = false ∧ src.isServer = false then (st, [])
    else
      match hash_find_id st.clients (arg parv 1) with
      | none => (st, [])
      | some target =>
        ({ st with clients := updateClient st.clients target.cid (svsloginWrite parv) }, [])

/-- `me_mechlist`: the ENCAP `MECHLIST` handler.  `parv[1]` is the
mechanism list; absent or empty yields a NULL mechanism string. -/
def me_mechlist (st : IrcState) (parv : List String) : IrcState × List Output :=
  (cap_register (cap_unregister st)
    (if 2 ≤ parv.length ∧ arg parv 1 ≠ "" then some (arg parv 1) else none), [])

/-- `sasl_client_exit_hook`: on local client exit, send `D A` to the bound
agent (when both the agent and the client's UID are known) and clear the
session. -/
def sasl_client_exit_hook (st : IrcState) (cid : Nat) : IrcState × List Output :=
  match findClientByCid st.clients cid with
  | none => (st, [])
  | some client =>
    match sasl_find_session st.sessions cid with
    | none => (st, [])
    | some (i, sess) =>
      ({ st with sessions := st.sessions.set i Session.cleared },
        if sess.agent ≠ "" ∧ client.id ≠ "" then
          [Output.toServers (saslAbortLine client.id sess.agent)]
        else [])

/-- The events the module reacts to (plus a client connecting, which the
host performs and which does not touch the session table). -/
inductive Event where
  | connect (c : Client)
  | authenticate (cid : Nat) (param : String) (freshUid : String) (now : Nat)
  | saslMsg (parv : List String)
  | svslogin (srcCid : Nat) (parv : List String)
  | mechlist (parv : List String)
  | clientExit (cid : Nat)
deriving DecidableEq

/-- One dispatch step of the event loop. -/
def step (st : IrcState) : Event → IrcState × List Output
  | Event.connect c => ({ st with clients := st.clients ++ [c] }, [])
  | Event.authenticate cid p f n => mr_authenticate st cid p f n
  | Event.saslMsg parv => me_sasl st parv
  | Event.svslogin s parv => me_svslogin st s parv
  | Event.mechlist parv => me_mechlist st parv
  | Event.clientExit cid =>
    ({ (sasl_client_exit_hook st cid).1 with
        clients := (sasl_client_exit_hook st cid).1.clients.filter (fun c => c.cid ≠ cid) },
      (sasl_client_exit_hook st cid).2)

/-- The state right after module init: a zeroed 256-slot session table and
the `sasl` capability advertised with `PLAIN`. -/
def initState (clients : List Client) : IrcState :=
  { sessions := List.replicate SASL_MAX_SESSIONS Session.cleared
    clients := clients
    capRegistered := true
    capMechs := some "PLAIN" }

/-- States reachable from module init by dispatching events. -/
inductive Reachable : IrcState → Prop where
  | init (clients : List Client) : Reachable (initState clients)
  | next (st : IrcState) (e : Event) : Reachable st → Reachable (step st e).1

/-! ### Helper lemmas about the table primitives -/

theorem slot_of_set {α : Type _} {l : List α} {j : Nat} {x : α} {i : Nat} {a b : α}
    (h : l[i]? = some a) (h' : (l.set j x)[i]? = some b) :
    b = a ∨ (i = j ∧ b = x) := by
  by_cases hij : j = i
  · subst hij
    have hlt : j < l.length := (List.getElem?_eq_some_iff.1 h).1
    rw [List.getElem?_set_self hlt] at h'
    exact Or.inr ⟨rfl, (Option.some.inj h').symm⟩
  · rw [List.getElem?_set_ne hij, h] at h'
    exact Or.inl (Option.some.inj h').symm

theorem findSessionAux_spec {cid : Nat} :
    ∀ (l : List Session) (i j : Nat) (s : Session),
      findSessionAux cid l i = some (j, s) →
      i ≤ j ∧ l[j - i]? = some s ∧ s.client = some cid := by
  intro l
  induction l with
  | nil => intro i j s h; simp [findSessionAux] at h
  | cons hd tl ih =>
    intro i j s h
    by_cases hc : hd.client = some cid
    · simp [findSessionAux, hc] at h
      obtain ⟨hj, hs⟩ := h
      subst hj; subst hs
      simpa using hc
    · simp only [findSessionAux, hc, if_neg, if_false] at h
      obtain ⟨hle, hget, hcl⟩ := ih (i + 1) j s h
      refine ⟨by omega, ?_, hcl⟩
      have hji : j - i = (j - (i + 1)) + 1 := by omega
      rw [hji]
      simpa using hget

theorem sasl_find_session_spec {l : List Session} {cid j : Nat} {s : Session}
    (h : sasl_find_session l cid = some (j, s)) :
    l[j]? = some s ∧ s.client = some cid := by
  obtain ⟨_, hget, hcl⟩ := findSessionAux_spec l 0 j s h
  simpa using ⟨hget, hcl⟩

theorem newSessionAux_spec {cid now : Nat} :
    ∀ (l l' : List Session), newSessionAux cid now l = some l' →
      ∃ j s, l[j]? = some s ∧ s.client = none ∧
        l' = l.set j (freshSession cid now) := by
  intro l
  induction l with
  | nil => intro l' h; simp [newSessionAux] at h
  | cons hd tl ih =>
    intro l' h
    by_cases hc : hd.client = none
    · simp [newSessionAux, hc] at h
      exact ⟨0, hd, by simp, hc, by simp [h.symm]⟩
    · simp only [newSessionAux, hc, if_neg, if_false, Option.map_eq_some'] at h
      obtain ⟨l1, h1, hl'⟩ := h
      obtain ⟨j, s, hget, hcl, rfl⟩ := ih l1 h1
      exact ⟨j + 1, s, by simpa using hget, hcl, by rw [hl'.symm]; rfl⟩

theorem newSessionAux_full {cid now : Nat} :
    ∀ (l : List Session), (∀ s ∈ l, s.client ≠ none) →
      newSessionAux cid now l = none := by
  intro l
  induction l with
  | nil => intro _; rfl
  | cons hd tl ih =>
    intro h
    have hc : hd.client ≠ none := h hd (by simp)
    simp only [newSessionAux, hc, if_neg, if_false]
    rw [ih (fun s hs => h s (by simp [hs]))]
    rfl

/-! ### Slot-write characterization of each handler

Every mutation of the session table performed by a dispatch step is a
`List.set` of one slot, and the written value is one of a small set of
shapes.  This is the backbone of the agent-binding and completeness
invariants. -/

/-- The possible values a dispatch step may write into slot `j` of the
session table `l` (relative to the old contents of the table), tagged
with the event that performed the write. -/
def SlotWrite (l : List Session) (j : Nat) (x : Session) (e : Event) : Prop :=
  x = Session.cleared ∨
  (∃ s, l[j]? = some s ∧ s.client = none ∧ ∃ cid n, x = freshSession cid n) ∨
  (∃ s cid, l[j]? = some s ∧ s.client = some cid ∧
    x = { s with messages := s.messages + 1 }) ∨
  (∃ s parv, l[j]? = some s ∧ s.client ≠ none ∧ s.agent = "" ∧
    e = Event.saslMsg parv ∧ 5 ≤ parv.length ∧
    (arg parv 3).toList.head? = some 'C' ∧ x = { s with agent := arg parv 1 }) ∨
  (∃ s, l[j]? = some s ∧ s.client ≠ none ∧ x = { s with failures := s.failures + 1 })

theorem authAbort_shape (st : IrcState) (src : Client) :
    (authAbort st src).1.sessions = st.sessions ∨
    ∃ j, (authAbort st src).1.sessions = st.sessions.set j Session.cleared := by
  cases h : sasl_find_session st.sessions src.cid with
  | none => simp [authAbort, h]
  | some p =>
    obtain ⟨i, sess⟩ := p
    right
    exact ⟨i, by simp [authAbort, h]⟩

theorem authStart_shape (st : IrcState) (src : Client) (param : String) (now : Nat) :
    (authStart st src param now).1.sessions = st.sessions ∨
    ∃ j s, st.sessions[j]? = some s ∧ s.client = none ∧
      (authStart st src param now).1.sessions =
        st.sessions.set j (freshSession src.cid now) := by
  cases h : sasl_new_session st.sessions src.cid now with
  | none => simp [authStart, h]
  | some l1 =>
    obtain ⟨j, s, hget, hcl, rfl⟩ := newSessionAux_spec st.sessions l1 h
    right
    exact ⟨j, s, hget, hcl, by simp [authStart, h]⟩

theorem authCont_shape (st : IrcState) (src : Client) (param : String)
    (i : Nat) (sess : Session) :
    (authCont st src param i sess).1.sessions = st.sessions.set i Session.cleared ∨
    (authCont st src param i sess).1.sessions =
      st.sessions.set i { sess with messages := sess.messages + 1 } := by
  by_cases h : sess.messages + 1 > SASL_MAX_MESSAGES <;> simp [authCont, h]

theorem mr_authenticate_shape (st : IrcState) (cid : Nat) (param fresh : String)
    (now : Nat) :
    (mr_authenticate st cid param fresh now).1.sessions = st.sessions ∨
    ∃ j x, (mr_authenticate st cid param fresh now).1.sessions = st.sessions.set j x ∧
      SlotWrite st.sessions j x (Event.authenticate cid param fresh now) := by
  unfold mr_authenticate
  cases hsrc : findClientByCid st.clients cid with
  | none => exact Or.inl rfl
  | some src0 =>
    by_cases hcap : src0.hasCapSasl = false
    · simp [hcap]
    · by_cases hstar : param = "*"
      · simp only [hcap, hstar, if_true, if_false, if_neg, Bool.not_eq_true]
        rcases authAbort_shape st src0 with h | ⟨j, h⟩
        · exact Or.inl (by simpa [hstar] using h)
        · exact Or.inr ⟨j, Session.cleared, by simpa [hstar] using h, Or.inl rfl⟩
      · cases hfind : sasl_find_session st.sessions cid with
        | none =>
          have hshape := authStart_shape
            { st with clients := authClients st src0 cid fresh }
            (authSrc src0 fresh) param now
          simp only [hcap, hstar, if_neg, if_false, hfind, Bool.not_eq_true] at *
          rcases hshape with h | ⟨j, s, hget, hcl, h⟩
          · exact Or.inl h
          · exact Or.inr ⟨j, freshSession (authSrc src0 fresh).cid now, h,
              Or.inr (Or.inl ⟨s, hget, hcl, _, now, rfl⟩)⟩
        | some p =>
          obtain ⟨i, sess⟩ := p
          obtain ⟨hget, hcl⟩ := sasl_find_session_spec hfind
          have hshape := authCont_shape
            { st with clients := authClients st src0 cid fresh }
            (authSrc src0 fresh) param i sess
          simp only [hcap, hstar, if_neg, if_false, hfind, Bool.not_eq_true] at *
          rcases hshape with h | h
          · exact Or.inr ⟨i, Session.cleared, h, Or.inl rfl⟩
          · exact Or.inr ⟨i, { sess with messages := sess.messages + 1 }, h,
              Or.inr (Or.inr (Or.inl ⟨sess, cid, hget, hcl, rfl⟩))⟩

theorem meSaslC_shape (st : IrcState) (parv : List String) (target : Client)
    (hC : (arg parv 3).toList.head? = some 'C') :
    (meSaslC st parv target).1.sessions = st.sessions ∨
    ∃ j x, (meSaslC st parv target).1.sessions = st.sessions.set j x ∧
      SlotWrite st.sessions j x (Event.saslMsg parv) := by
  unfold meSaslC
  split
  · exact Or.inl rfl
  · rename_i hlen
    split
    · rename_i i sess hfind
      obtain ⟨hget, hcl⟩ := sasl_find_session_spec hfind
      split
      · rename_i hag
        right
        refine ⟨i, { sess with agent := arg parv 1 }, rfl, ?_⟩
        exact Or.inr (Or.inr (Or.inr (Or.inl
          ⟨sess, parv, hget, by simp [hcl], hag, rfl, by omega, hC, rfl⟩)))
      · exact Or.inl rfl
    · exact Or.inl rfl

theorem meSaslD_shape (st : IrcState) (parv : List String) (target : Client) :
    (meSaslD st parv target).1.sessions = st.sessions ∨
    ∃ j x, (meSaslD st parv target).1.sessions = st.sessions.set j x ∧
      SlotWrite st.sessions j x (Event.saslMsg parv) := by
  unfold meSaslD
  split
  · unfold meSaslDSuccess
    split
    · rename_i i sess hfind
      right
      exact ⟨i, Session.cleared, by rw [List.set_set], Or.inl rfl⟩
    · exact Or.inl rfl
  · unfold meSaslDFail
    split
    · rename_i i sess hfind
      obtain ⟨hget, hcl⟩ := sasl_find_session_spec hfind
      split
      · right
        exact ⟨i, Session.cleared, by rw [List.set_set], Or.inl rfl⟩
      · right
        refine ⟨i, { sess with failures := sess.failures + 1 }, rfl, ?_⟩
        exact Or.inr (Or.inr (Or.inr (Or.inr ⟨sess, hget, by simp [hcl], rfl⟩)))
    · exact Or.inl rfl

theorem me_sasl_shape (st : IrcState) (parv : List String) :
    (me_sasl st parv).1.sessions = st.sessions ∨
    ∃ j x, (me_sasl st parv).1.sessions = st.sessions.set j x ∧
      SlotWrite st.sessions j x (Event.saslMsg parv) := by
  unfold me_sasl
  split
  · exact Or.inl rfl
  · rename_i target htarget
    split
    · exact Or.inl rfl
    · split
      · rename_i heq
        exact meSaslC_shape st parv target heq
      · split
        · exact meSaslD_shape st parv target
        · split
          · unfold meSaslL
            split
            · exact Or.inl rfl
            · exact Or.inl rfl
          · split
            · exact Or.inl rfl
            · exact Or.inl rfl

theorem exit_hook_shape (st : IrcState) (cid : Nat) :
    (sasl_client_exit_hook st cid).1.sessions = st.sessions ∨
    ∃ j, (sasl_client_exit_hook st cid).1.sessions =
      st.sessions.set j Session.cleared := by
  cases hsrc : findClientByCid st.clients cid with
  | none => simp [sasl_client_exit_hook, hsrc]
  | some client =>
    cases hfind : sasl_find_session st.sessions cid with
    | none => simp [sasl_client_exit_hook, hsrc, hfind]
    | some p =>
      obtain ⟨i, sess⟩ := p
      exact Or.inr ⟨i, by simp [sasl_client_exit_hook, hsrc, hfind]⟩

theorem step_shape (st : IrcState) (e : Event) :
    (step st e).1.sessions = st.sessions ∨
    ∃ j x, (step st e).1.sessions = st.sessions.set j x ∧
      SlotWrite st.sessions j x e := by
  cases e with
  | connect c => exact Or.inl rfl
  | authenticate cid p f n => exact mr_authenticate_shape st cid p f n
  | saslMsg parv => exact me_sasl_shape st parv
  | svslogin s parv =>
    left
    show (me_svslogin st s parv).1.sessions = st.sessions
    unfold me_svslogin
    split
    · rfl
    · split
      · rfl
      · split
        · rfl
        · rfl
  | mechlist parv => exact Or.inl rfl
  | clientExit cid =>
    rcases exit_hook_shape st cid with h | ⟨j, h⟩
    · exact Or.inl h
    · exact Or.inr ⟨j, Session.cleared, h, Or.inl rfl⟩

/-! ### Invariant claims -/

/-- Claim C6: in every state, over any dispatch step, a session slot that
stays bound to the same client never changes a non-empty `agent`; and the
only step that turns an empty `agent` non-empty is a services `SASL`
message of type `C`, which installs its own agent argument. -/
theorem agent_binding_is_one_shot (st : IrcState) (e : Event) (i : Nat)
    (sess sess' : Session)
    (hget : st.sessions[i]? = some sess)
    (hget' : (step st e).1.sessions[i]? = some sess')
    (hlive : sess.client ≠ none)
    (hsame : sess'.client = sess.client) :
    (sess.agent ≠ "" → sess'.agent = sess.agent) ∧
    (sess.agent = "" → sess'.agent ≠ "" →
      ∃ parv, e = Event.saslMsg parv ∧
        (arg parv 3).toList.head? = some 'C' ∧ sess'.agent = arg parv 1) := by
  rcases step_shape st e with h | ⟨j, x, h, hw⟩
  · rw [h, hget] at hget'
    obtain rfl := Option.some.inj hget'
    exact ⟨fun _ => rfl, fun h1 h2 => absurd h1 h2⟩
  · rw [h] at hget'
    rcases slot_of_set hget hget' with rfl | ⟨rfl, rfl⟩
    · exact ⟨fun _ => rfl, fun h1 h2 => absurd h1 h2⟩
    · rcases hw with rfl | ⟨s, hgs, hcl, cid, n, rfl⟩ |
        ⟨s, cid, hgs, hcl, rfl⟩ | ⟨s, parv, hgs, _, hag, rfl, _, hC, rfl⟩ |
        ⟨s, hgs, _, rfl⟩
      · exact absurd hsame.symm hlive
      · rw [hget] at hgs
        obtain rfl := Option.some.inj hgs
        exact absurd hcl hlive
      · rw [hget] at hgs
        obtain rfl := Option.some.inj hgs
        exact ⟨fun _ => rfl, fun h1 h2 => absurd h1 h2⟩
      · rw [hget] at hgs
        obtain rfl := Option.some.inj hgs
        exact ⟨fun h1 => absurd hag h1, fun _ _ => ⟨parv, rfl, hC, rfl⟩⟩
      · rw [hget] at hgs
        obtain rfl := Option.some.inj hgs
        exact ⟨fun _ => rfl, fun h1 h2 => absurd h1 h2⟩

/-- Session and state used to witness the invariant theorems on a
concrete instance. -/
def sessW : Session :=
  { client := some 7, agent := "AG", messages := 1, failures := 0
    start_time := 3, complete := false }

/-- A one-slot state holding `sessW`. -/
def stW : IrcState :=
  { sessions := [sessW], clients := [], capRegistered := true, capMechs := some "PLAIN" }

/-- Witness for C6 at a concrete state and event. -/
theorem agent_binding_is_one_shot_witness :
    (sessW.agent ≠ "" → sessW.agent = sessW.agent) ∧
    (sessW.agent = "" → sessW.agent ≠ "" →
      ∃ parv, Event.mechlist [] = Event.saslMsg parv ∧
        (arg parv 3).toList.head? = some 'C' ∧ sessW.agent = arg parv 1) :=
  agent_binding_is_one_shot stW (Event.mechlist []) 0 sessW sessW
    (by decide) (by decide) (by decide) (by decide)

/-- Claim C10 invariant, preserved by each dispatch step. -/
theorem liveNotComplete_step (st : IrcState) (e : Event)
    (h : ∀ sess ∈ st.sessions, sess.client ≠ none → sess.complete = false) :
    ∀ sess ∈ (step st e).1.sessions, sess.client ≠ none → sess.complete = false := by
  rcases step_shape st e with hs | ⟨j, x, hs, hw⟩
  · intro sess hmem; rw [hs] at hmem; exact h sess hmem
  · intro sess hmem hlive
    rw [hs] at hmem
    rcases List.mem_or_eq_of_mem_set hmem with hmem | rfl
    · exact h sess hmem hlive
    · rcases hw with rfl | ⟨s, hgs, hcl, cid, n, rfl⟩ |
        ⟨s, cid, hgs, hcl, rfl⟩ | ⟨s, parv, hgs, hcl, _, _, _, _, rfl⟩ |
        ⟨s, hgs, hcl, rfl⟩
      · rfl
      · rfl
      · exact h s (List.mem_iff_getElem?.2 ⟨j, hgs⟩) (by simp [hcl])
      · exact h s (List.mem_iff_getElem?.2 ⟨j, hgs⟩) hcl
      · exact h s (List.mem_iff_getElem?.2 ⟨j, hgs⟩) hcl

/-- Claim C10: in every reachable state, every live session (one whose
client field is non-null) has `complete = false`; the success handler's
`complete := true` is immediately erased by the zeroing of the slot in
the same step, so no live session is ever observed complete. -/
theorem live_session_never_complete (st : IrcState) (h : Reachable st) :
    ∀ sess ∈ st.sessions, sess.client ≠ none → sess.complete = false := by
  induction h with
  | init clients =>
    intro sess hmem _
    have hc := List.eq_of_mem_replicate hmem
    subst hc; rfl
  | next st e _ ih => exact liveNotComplete_step st e ih

/-- Witness for C10 at the initial state. -/
theorem live_session_never_complete_witness :
    Reachable (initState []) ∧
      (∀ sess ∈ (initState []).sessions, sess.client ≠ none → sess.complete = false) :=
  ⟨Reachable.init [], live_session_never_complete (initState []) (Reachable.init [])⟩

/-! ### Concrete instances for counterexamples and witnesses -/

/-- A locally connected client with the `sasl` capability. -/
def alice : Client :=
  { cid := 1, name := "alice", id := "UID1", username := "u", host := "example.org"
    sockhost := "127.0.0.1", account := "", myConnect := true, hasCapSasl := true
    isService := false, isServer := false }

/-- The services server origin. -/
def servicesServer : Client :=
  { cid := 2, name := "services.x", id := "SRV", username := "s", host := "h"
    sockhost := "h", account := "", myConnect := true, hasCapSasl := false
    isService := false, isServer := true }

/-- A known client that is not locally connected. -/
def remoteBob : Client :=
  { cid := 3, name := "bob", id := "UID3", username := "u3", host := "h3"
    sockhost := "s3", account := "", myConnect := false, hasCapSasl := false
    isService := false, isServer := false }

/-- A full-size table with the given session in slot 0. -/
def tableWith (sess : Session) : List Session :=
  (List.replicate SASL_MAX_SESSIONS Session.cleared).set 0 sess

/-- Alice's in-progress session with agent `AG` and the given counters. -/
def aliceSession (msgs fails : Nat) : Session :=
  { client := some 1, agent := "AG", messages := msgs, failures := fails
    start_time := 5, complete := false }

/-- State: alice connected, session in slot 0 with the given counters. -/
def stAlice (msgs fails : Nat) : IrcState :=
  { sessions := tableWith (aliceSession msgs fails), clients := [alice]
    capRegistered := true, capMechs := some "PLAIN" }

/-- Reduction of the `D`-failure arm once the session lookup is known. -/
theorem meSaslDFail_eq_some (st : IrcState) (target : Client) (i : Nat) (sess : Session)
    (hfind : sasl_find_session st.sessions target.cid = some (i, sess)) :
    meSaslDFail st target =
      if sess.failures + 1 ≥ SASL_MAX_FAILURES then
        ({ st with sessions := (st.sessions.set i { sess with failures := sess.failures + 1 }).set i Session.cleared },
          [Output.numeric target.cid 904 (failedBody target.name)])
      else
        ({ st with sessions := st.sessions.set i { sess with failures := sess.failures + 1 } },
          [Output.numeric target.cid 904 (failedBody target.name)]) := by
  unfold meSaslDFail
  rw [hfind]

/-- Reduction of the `D`-success arm once the session lookup is known. -/
theorem meSaslDSuccess_eq_some (st : IrcState) (target : Client) (i : Nat) (sess : Session)
    (hfind : sasl_find_session st.sessions target.cid = some (i, sess)) :
    meSaslDSuccess st target =
      ({ st with sessions := (st.sessions.set i { sess with complete := true }).set i Session.cleared },
        [Output.numeric target.cid 900 (loggedInBody target),
         Output.numeric target.cid 903 (successBody target.name)]) := by
  unfold meSaslDSuccess
  rw [hfind]

/-- Reduction of `me_sasl` once the target lookup is known. -/
theorem me_sasl_eq_target (st : IrcState) (parv : List String) (target : Client)
    (htarget : hash_find_id st.clients (arg parv 2) = some target) :
    me_sasl st parv =
      if target.myConnect = false then (st, [])
      else if (arg parv 3).toList.head? = some 'C' then meSaslC st parv target
      else if (arg parv 3).toList.head? = some 'D' then meSaslD st parv target
      else if (arg parv 3).toList.head? = some 'L' then meSaslL st parv target
      else if (arg parv 3).toList.head? = some 'M' then meSaslM st parv
      else (st, []) := by
  unfold me_sasl
  rw [htarget]

/-! ### Claim C1 -/

set_option maxRecDepth 8192 in
/-- Claim C1 counterexample: the services `D` message with absent data
(four arguments after dispatch), addressed to the locally connected
client alice, is NOT dropped silently: the handler emits numeric 904 to
her and her session's failures counter is incremented. -/
theorem sasl_D_absent_data_not_silent :
    Output.numeric alice.cid 904 (failedBody alice.name) ∈
        (me_sasl (stAlice 0 0) ["SASL", "AG2", "UID1", "D"]).2 ∧
      (me_sasl (stAlice 0 0) ["SASL", "AG2", "UID1", "D"]).1.sessions[0]? =
        some (aliceSession 0 1) := by
  decide

/-- Claim C1 (amended): a services `SASL` message of type `D` whose data
argument is absent (fewer than five arguments after dispatch), addressed
to a locally connected target, is treated as a failure outcome: numeric
904 is emitted to the target; with no session the state is otherwise
unchanged, and with a session the failures counter is incremented, the
session being cleared exactly when the counter reaches the cap. -/
theorem sasl_D_absent_data_is_failure (st : IrcState) (parv : List String)
    (target : Client)
    (htarget : hash_find_id st.clients (arg parv 2) = some target)
    (hconn : target.myConnect = true)
    (hD : (arg parv 3).toList.head? = some 'D')
    (hlen : parv.length = 4) :
    Output.numeric target.cid 904 (failedBody target.name) ∈ (me_sasl st parv).2 ∧
    (sasl_find_session st.sessions target.cid = none → (me_sasl st parv).1 = st) ∧
    ∀ i sess, sasl_find_session st.sessions target.cid = some (i, sess) →
      (sess.failures + 1 < SASL_MAX_FAILURES →
        (me_sasl st parv).1.sessions =
          st.sessions.set i { sess with failures := sess.failures + 1 }) ∧
      (SASL_MAX_FAILURES ≤ sess.failures + 1 →
        (me_sasl st parv).1.sessions = st.sessions.set i Session.cleared) := by
  have hnotC : ¬ (arg parv 3).toList.head? = some 'C' := by rw [hD]; decide
  have hno : ¬ (5 ≤ parv.length ∧ (arg parv 4).toList.head? = some 'S') := by
    rintro ⟨h5, _⟩; omega
  rw [me_sasl_eq_target st parv target htarget, if_neg (by simp [hconn]),
    if_neg hnotC, if_pos hD]
  unfold meSaslD
  rw [if_neg hno]
  refine ⟨?_, ?_, ?_⟩
  · unfold meSaslDFail
    split
    · rename_i i sess hfind
      split <;> simp
    · simp
  · intro hfind
    unfold meSaslDFail
    rw [hfind]
  · intro i sess hfind
    rw [meSaslDFail_eq_some st target i sess hfind]
    exact ⟨fun hlow => by rw [if_neg (Nat.not_le.mpr hlow)],
           fun hcap => by rw [if_pos hcap, List.set_set]⟩

/-- Witness for the amended C1 at a concrete state and message. -/
theorem sasl_D_absent_data_is_failure_witness :
    Output.numeric alice.cid 904 (failedBody alice.name) ∈
        (me_sasl (stAlice 0 0) ["SASL", "AG2", "UID1", "D"]).2 ∧
      (sasl_find_session (stAlice 0 0).sessions alice.cid = none →
        (me_sasl (stAlice 0 0) ["SASL", "AG2", "UID1", "D"]).1 = stAlice 0 0) ∧
      ∀ i sess, sasl_find_session (stAlice 0 0).sessions alice.cid = some (i, sess) →
        (sess.failures + 1 < SASL_MAX_FAILURES →
          (me_sasl (stAlice 0 0) ["SASL", "AG2", "UID1", "D"]).1.sessions =
            (stAlice 0 0).sessions.set i { sess with failures := sess.failures + 1 }) ∧
        (SASL_MAX_FAILURES ≤ sess.failures + 1 →
          (me_sasl (stAlice 0 0) ["SASL", "AG2", "UID1", "D"]).1.sessions =
            (stAlice 0 0).sessions.set i Session.cleared) :=
  sasl_D_absent_data_is_failure (stAlice 0 0) ["SASL", "AG2", "UID1", "D"] alice
    (by decide) (by decide) (by decide) (by decide)

/-! ### Claim C5 -/

/-- Claim C5: a services `D` failure outcome for a target with a session
increments the failures counter; at the cap (3) the session is cleared,
below the cap it is retained with the bumped counter; numeric 904 is
emitted in both sub-cases. -/
theorem sasl_D_failure_counts_and_caps (st : IrcState) (parv : List String)
    (target : Client) (i : Nat) (sess : Session)
    (htarget : hash_find_id st.clients (arg parv 2) = some target)
    (hconn : target.myConnect = true)
    (hD : (arg parv 3).toList.head? = some 'D')
    (hfail : ¬ (5 ≤ parv.length ∧ (arg parv 4).toList.head? = some 'S'))
    (hfind : sasl_find_session st.sessions target.cid = some (i, sess)) :
    Output.numeric target.cid 904 (failedBody target.name) ∈ (me_sasl st parv).2 ∧
    (SASL_MAX_FAILURES ≤ sess.failures + 1 →
      (me_sasl st parv).1.sessions = st.sessions.set i Session.cleared) ∧
    (sess.failures + 1 < SASL_MAX_FAILURES →
      (me_sasl st parv).1.sessions =
        st.sessions.set i { sess with failures := sess.failures + 1 }) := by
  have hnotC : ¬ (arg parv 3).toList.head? = some 'C' := by rw [hD]; decide
  rw [me_sasl_eq_target st parv target htarget, if_neg (by simp [hconn]),
    if_neg hnotC, if_pos hD]
  unfold meSaslD
  rw [if_neg hfail, meSaslDFail_eq_some st target i sess hfind]
  refine ⟨?_, fun hcap => by rw [if_pos hcap, List.set_set],
    fun hlow => by rw [if_neg (Nat.not_le.mpr hlow)]⟩
  by_cases hcap : sess.failures + 1 ≥ SASL_MAX_FAILURES
  · rw [if_pos hcap]; simp
  · rw [if_neg hcap]; simp

set_option maxRecDepth 8192 in
/-- Witness for C5: alice's session at two failures receives `D F`; the
counter reaches the cap, 904 is emitted and the session is cleared. -/
theorem sasl_D_failure_counts_and_caps_witness :
    Output.numeric alice.cid 904 (failedBody alice.name) ∈
        (me_sasl (stAlice 0 2) ["SASL", "AG", "UID1", "D", "F"]).2 ∧
      (SASL_MAX_FAILURES ≤ (aliceSession 0 2).failures + 1 →
        (me_sasl (stAlice 0 2) ["SASL", "AG", "UID1", "D", "F"]).1.sessions =
          (stAlice 0 2).sessions.set 0 Session.cleared) ∧
      ((aliceSession 0 2).failures + 1 < SASL_MAX_FAILURES →
        (me_sasl (stAlice 0 2) ["SASL", "AG", "UID1", "D", "F"]).1.sessions =
          (stAlice 0 2).sessions.set 0 { aliceSession 0 2 with
            failures := (aliceSession 0 2).failures + 1 }) :=
  sasl_D_failure_counts_and_caps (stAlice 0 2) ["SASL", "AG", "UID1", "D", "F"]
    alice 0 (aliceSession 0 2) (by decide) (by decide) (by decide) (by decide) (by decide)

/-! ### Claim C8 -/

/-- Claim C8: a services `D S` success message for a locally connected
target emits numerics 900 and 903 even when no session exists; session
bookkeeping happens only when a session exists (it is then cleared). -/
theorem sasl_D_success_emits_900_903 (st : IrcState) (parv : List String)
    (target : Client)
    (htarget : hash_find_id st.clients (arg parv 2) = some target)
    (hconn : target.myConnect = true)
    (hD : (arg parv 3).toList.head? = some 'D')
    (hS : 5 ≤ parv.length ∧ (arg parv 4).toList.head? = some 'S') :
    Output.numeric target.cid 900 (loggedInBody target) ∈ (me_sasl st parv).2 ∧
    Output.numeric target.cid 903 (successBody target.name) ∈ (me_sasl st parv).2 ∧
    (sasl_find_session st.sessions target.cid = none → (me_sasl st parv).1 = st) ∧
    ∀ i sess, sasl_find_session st.sessions target.cid = some (i, sess) →
      (me_sasl st parv).1.sessions = st.sessions.set i Session.cleared := by
  have hnotC : ¬ (arg parv 3).toList.head? = some 'C' := by rw [hD]; decide
  rw [me_sasl_eq_target st parv target htarget, if_neg (by simp [hconn]),
    if_neg hnotC, if_pos hD]
  unfold meSaslD
  rw [if_pos hS]
  refine ⟨?_, ?_, ?_, ?_⟩
  · unfold meSaslDSuccess
    split
    · simp
    · simp
  · unfold meSaslDSuccess
    split
    · simp
    · simp
  · intro hfind
    unfold meSaslDSuccess
    rw [hfind]
  · intro i sess hfind
    rw [meSaslDSuccess_eq_some st target i sess hfind, List.set_set]

set_option maxRecDepth 8192 in
/-- Witness for C8: a stray `D S` for alice, who has no session, still
produces 900 and 903 and leaves the state untouched. -/
theorem sasl_D_success_emits_900_903_witness :
    Output.numeric alice.cid 900 (loggedInBody alice) ∈
        (me_sasl (initState [alice]) ["SASL", "AG", "UID1", "D", "S"]).2 ∧
      Output.numeric alice.cid 903 (successBody alice.name) ∈
        (me_sasl (initState [alice]) ["SASL", "AG", "UID1", "D", "S"]).2 ∧
      (sasl_find_session (initState [alice]).sessions alice.cid = none →
        (me_sasl (initState [alice]) ["SASL", "AG", "UID1", "D", "S"]).1 = initState [alice]) ∧
      ∀ i sess, sasl_find_session (initState [alice]).sessions alice.cid = some (i, sess) →
        (me_sasl (initState [alice]) ["SASL", "AG", "UID1", "D", "S"]).1.sessions =
          (initState [alice]).sessions.set i Session.cleared :=
  sasl_D_success_emits_900_903 (initState [alice]) ["SASL", "AG", "UID1", "D", "S"]
    alice (by decide) (by decide) (by decide) (by decide)

/-! ### Claim C3 -/

/-- State with the services server and a known but remote client. -/
def stRemote : IrcState := initState [servicesServer, remoteBob]

set_option maxRecDepth 8192 in
/-- Claim C3 counterexample: an `SVSLOGIN` from the services server whose
target resolves to a known client that is NOT locally connected is not
dropped: the target's account field is written. -/
theorem svslogin_remote_target_written :
    (me_svslogin stRemote servicesServer.cid
        ["SVSLOGIN", "UID3", "*", "*", "*", "newacct"]).1.clients =
      [servicesServer, { remoteBob with account := "newacct" }] := by
  decide

/-- Claim C3 (amended): a services `SASL` relay message whose target UID
is unknown, or resolves to a client that is not locally connected, is
dropped silently; an `SVSLOGIN` is dropped silently when its target UID
is unknown (a known but non-local target is still processed). -/
theorem relay_unknown_target_dropped (st : IrcState) (parv parw : List String)
    (srcCid : Nat) :
    (hash_find_id st.clients (arg parv 2) = none → me_sasl st parv = (st, [])) ∧
    (∀ target, hash_find_id st.clients (arg parv 2) = some target →
      target.myConnect = false → me_sasl st parv = (st, [])) ∧
    (hash_find_id st.clients (arg parw 1) = none →
      me_svslogin st srcCid parw = (st, [])) := by
  refine ⟨?_, ?_, ?_⟩
  · intro h
    unfold me_sasl
    rw [h]
  · intro target htarget hconn
    rw [me_sasl_eq_target st parv target htarget, if_pos hconn]
  · intro h
    unfold me_svslogin
    split
    · rfl
    · split
      · rfl
      · rw [h]

/-- Witness for the amended C3: unknown-target `SASL` and `SVSLOGIN`
messages, and a `SASL` message to the remote client, are dropped. -/
theorem relay_unknown_target_dropped_witness :
    me_sasl stRemote ["SASL", "AG", "NOPE", "D", "S"] = (stRemote, []) ∧
      me_sasl stRemote ["SASL", "AG", "UID3", "D", "S"] = (stRemote, []) ∧
      me_svslogin stRemote servicesServer.cid ["SVSLOGIN", "NOPE", "*", "*", "*", "a"] =
        (stRemote, []) :=
  ⟨(relay_unknown_target_dropped stRemote ["SASL", "AG", "NOPE", "D", "S"]
      ["SVSLOGIN", "NOPE", "*", "*", "*", "a"] servicesServer.cid).1 (by decide),
    (relay_unknown_target_dropped stRemote ["SASL", "AG", "UID3", "D", "S"]
      ["SVSLOGIN", "NOPE", "*", "*", "*", "a"] servicesServer.cid).2.1 remoteBob
      (by decide) (by decide),
    (relay_unknown_target_dropped stRemote ["SASL", "AG", "NOPE", "D", "S"]
      ["SVSLOGIN", "NOPE", "*", "*", "*", "a"] servicesServer.cid).2.2 (by decide)⟩

/-! ### Claim C9 -/

/-- `svsloginWrite` never changes the UID. -/
theorem svsloginWrite_id (parv : List String) (c : Client) :
    (svsloginWrite parv c).id = c.id := by
  unfold svsloginWrite
  split <;> split <;> split <;> rfl

/-- `svsloginWrite` never changes the pointer identity. -/
theorem svsloginWrite_cid (parv : List String) (c : Client) :
    (svsloginWrite parv c).cid = c.cid := by
  unfold svsloginWrite
  split <;> split <;> split <;> rfl

/-- `find?` commutes with a map that does not change the predicate. -/
theorem find_pred_map (p : Client → Bool) (g : Client → Client)
    (hp : ∀ c, p (g c) = p c) :
    ∀ cs : List Client, (cs.map g).find? p = (cs.find? p).map g := by
  intro cs
  induction cs with
  | nil => rfl
  | cons hd tl ih =>
    rw [List.map_cons]
    cases hpd : p hd with
    | true =>
      rw [List.find?_cons_of_pos tl hpd,
        List.find?_cons_of_pos (tl.map g) (by rw [hp hd]; exact hpd)]
      rfl
    | false =>
      rw [List.find?_cons_of_neg tl (by simp [hpd]),
        List.find?_cons_of_neg (tl.map g) (by simp [hp hd, hpd]), ih]

/-- Looking up a UID after `updateClient` with an id-preserving update
finds the updated record. -/
theorem hash_find_id_updateClient (cs : List Client) (cid : Nat) (f : Client → Client)
    (hid : ∀ c, (f c).id = c.id) (uid : String) :
    hash_find_id (updateClient cs cid f) uid =
      (hash_find_id cs uid).map (fun c => if c.cid = cid then f c else c) := by
  unfold hash_find_id updateClient
  by_cases hu : uid = ""
  · simp [hu]
  · simp only [hu, if_neg, if_false]
    exact find_pred_map _ _
      (fun c => by by_cases hc : c.cid = cid <;> simp [hc, hid]) cs

/-- Reduction of `me_svslogin` on an accepted origin and known target. -/
theorem me_svslogin_eq (st : IrcState) (srcCid : Nat) (parv : List String)
    (src target : Client)
    (hsrc : findClientByCid st.clients srcCid = some src)
    (hflag : ¬ (src.isService = false ∧ src.isServer = false))
    (htarget : hash_find_id st.clients (arg parv 1) = some target) :
    me_svslogin st srcCid parv =
      ({ st with clients := updateClient st.clients target.cid (svsloginWrite parv) }, []) := by
  unfold me_svslogin
  rw [hsrc, htarget]
  show (if src.isService = false ∧ src.isServer = false then (st, [])
    else ({ st with clients := updateClient st.clients target.cid (svsloginWrite parv) },
      ([] : List Output))) = _
  rw [if_neg hflag]

/-- Claim C9: an accepted `SVSLOGIN` with a resolvable target sets the
target's username from the ident argument, host from the vhost argument
and account from the account argument, each independently and only when
present and different from the `"*"` sentinel; the nick argument is never
written. -/
theorem svslogin_field_effects (st : IrcState) (srcCid : Nat) (parv : List String)
    (src target : Client)
    (hsrc : findClientByCid st.clients srcCid = some src)
    (hflag : src.isService = true ∨ src.isServer = true)
    (htarget : hash_find_id st.clients (arg parv 1) = some target) :
    hash_find_id (me_svslogin st srcCid parv).1.clients (arg parv 1) =
      some (svsloginWrite parv target) ∧
    (svsloginWrite parv target).username =
      (if 4 ≤ parv.length ∧ arg parv 3 ≠ "*" then arg parv 3 else target.username) ∧
    (svsloginWrite parv target).host =
      (if 5 ≤ parv.length ∧ arg parv 4 ≠ "*" then arg parv 4 else target.host) ∧
    (svsloginWrite parv target).account =
      (if 6 ≤ parv.length ∧ arg parv 5 ≠ "*" then arg parv 5 else target.account) ∧
    (svsloginWrite parv target).name = target.name := by
  have hwrite : (me_svslogin st srcCid parv).1.clients =
      updateClient st.clients target.cid (svsloginWrite parv) := by
    rw [me_svslogin_eq st srcCid parv src target hsrc
      (by rcases hflag with h | h <;> simp [h]) htarget]
  refine ⟨?_, ?_, ?_, ?_, ?_⟩
  · rw [hwrite, hash_find_id_updateClient st.clients target.cid (svsloginWrite parv)
      (svsloginWrite_id parv) (arg parv 1), htarget]
    simp
  · unfold svsloginWrite
    split <;> split <;> split <;> rfl
  · unfold svsloginWrite
    split <;> split <;> split <;> rfl
  · unfold svsloginWrite
    split <;> split <;> split <;> rfl
  · unfold svsloginWrite
    split <;> split <;> split <;> rfl

set_option maxRecDepth 8192 in
/-- Witness for C9: an `SVSLOGIN` carrying a nick, an ident, a `"*"`
vhost and no account argument updates only the username of alice. -/
theorem svslogin_field_effects_witness :
    hash_find_id
        (me_svslogin (initState [servicesServer, alice]) servicesServer.cid
          ["SVSLOGIN", "UID1", "newnick", "ident9", "*"]).1.clients
        (arg ["SVSLOGIN", "UID1", "newnick", "ident9", "*"] 1) =
      some (svsloginWrite ["SVSLOGIN", "UID1", "newnick", "ident9", "*"] alice) ∧
    (svsloginWrite ["SVSLOGIN", "UID1", "newnick", "ident9", "*"] alice).username =
      (if 4 ≤ (["SVSLOGIN", "UID1", "newnick", "ident9", "*"] : List String).length ∧
          arg ["SVSLOGIN", "UID1", "newnick", "ident9", "*"] 3 ≠ "*" then
        arg ["SVSLOGIN", "UID1", "newnick", "ident9", "*"] 3
      else alice.username) ∧
    (svsloginWrite ["SVSLOGIN", "UID1", "newnick", "ident9", "*"] alice).host =
      (if 5 ≤ (["SVSLOGIN", "UID1", "newnick", "ident9", "*"] : List String).length ∧
          arg ["SVSLOGIN", "UID1", "newnick", "ident9", "*"] 4 ≠ "*" then
        arg ["SVSLOGIN", "UID1", "newnick", "ident9", "*"] 4
      else alice.host) ∧
    (svsloginWrite ["SVSLOGIN", "UID1", "newnick", "ident9", "*"] alice).account =
      (if 6 ≤ (["SVSLOGIN", "UID1", "newnick", "ident9", "*"] : List String).length ∧
          arg ["SVSLOGIN", "UID1", "newnick", "ident9", "*"] 5 ≠ "*" then
        arg ["SVSLOGIN", "UID1", "newnick", "ident9", "*"] 5
      else alice.account) ∧
    (svsloginWrite ["SVSLOGIN", "UID1", "newnick", "ident9", "*"] alice).name = alice.name :=
  svslogin_field_effects (initState [servicesServer, alice]) servicesServer.cid
    ["SVSLOGIN", "UID1", "newnick", "ident9", "*"] servicesServer alice
    (by decide) (by decide) (by decide)

/-! ### Claim C4 -/

/-- Claim C4: for every optional mechanism-list argument, a `MECHLIST`
message and a services `SASL` message of type `M` (addressed to a
resolvable, locally connected target) have the identical effect on the
advertised `sasl` capability state; an absent or empty list yields an
empty advertised mechanism set. -/
theorem mechlist_equiv_sasl_M (st : IrcState) (agent targetUid : String)
    (data : Option String) (target : Client)
    (htarget : hash_find_id st.clients targetUid = some target)
    (hconn : target.myConnect = true) :
    ((me_mechlist st ("MECHLIST" :: data.toList)).1.capRegistered =
        (me_sasl st ("SASL" :: agent :: targetUid :: "M" :: data.toList)).1.capRegistered ∧
      (me_mechlist st ("MECHLIST" :: data.toList)).1.capMechs =
        (me_sasl st ("SASL" :: agent :: targetUid :: "M" :: data.toList)).1.capMechs) ∧
    ((data = none ∨ data = some "") →
      (me_mechlist st ("MECHLIST" :: data.toList)).1.capMechs = none ∧
      (me_sasl st ("SASL" :: agent :: targetUid :: "M" :: data.toList)).1.capMechs = none) := by
  have htarget' : hash_find_id st.clients
      (arg ("SASL" :: agent :: targetUid :: "M" :: data.toList) 2) = some target := htarget
  have hM : arg ("SASL" :: agent :: targetUid :: "M" :: data.toList) 3 = "M" := rfl
  rw [me_sasl_eq_target st _ target htarget', if_neg (by simp [hconn]), hM,
    if_neg (by decide), if_neg (by decide), if_neg (by decide), if_pos (by decide)]
  cases data with
  | none => exact ⟨⟨rfl, rfl⟩, fun _ => ⟨rfl, rfl⟩⟩
  | some s =>
    by_cases hs : s = ""
    · subst hs
      exact ⟨⟨rfl, rfl⟩, fun _ => ⟨rfl, rfl⟩⟩
    · refine ⟨⟨rfl, ?_⟩, fun h => ?_⟩
      · simp [me_mechlist, meSaslM, cap_register, cap_unregister, arg, hs]
      · rcases h with h | h
        · exact absurd h (by simp)
        · exact absurd (Option.some.inj h) hs

set_option maxRecDepth 8192 in
/-- Witness for C4 at a concrete state and mechanism list. -/
theorem mechlist_equiv_sasl_M_witness :
    ((me_mechlist (initState [alice]) ("MECHLIST" :: (some "PLAIN EXTERNAL").toList)).1.capRegistered =
        (me_sasl (initState [alice])
          ("SASL" :: "AG" :: "UID1" :: "M" :: (some "PLAIN EXTERNAL").toList)).1.capRegistered ∧
      (me_mechlist (initState [alice]) ("MECHLIST" :: (some "PLAIN EXTERNAL").toList)).1.capMechs =
        (me_sasl (initState [alice])
          ("SASL" :: "AG" :: "UID1" :: "M" :: (some "PLAIN EXTERNAL").toList)).1.capMechs) ∧
    (((some "PLAIN EXTERNAL" : Option String) = none ∨
        (some "PLAIN EXTERNAL" : Option String) = some "") →
      (me_mechlist (initState [alice]) ("MECHLIST" :: (some "PLAIN EXTERNAL").toList)).1.capMechs =
          none ∧
      (me_sasl (initState [alice])
          ("SASL" :: "AG" :: "UID1" :: "M" :: (some "PLAIN EXTERNAL").toList)).1.capMechs =
        none) :=
  mechlist_equiv_sasl_M (initState [alice]) "AG" "UID1" (some "PLAIN EXTERNAL") alice
    (by decide) (by decide)

/-! ### Claim C2 -/

/-- The UID assignment does not change the pointer identity. -/
theorem authSrc_cid (src0 : Client) (fresh : String) :
    (authSrc src0 fresh).cid = src0.cid := by
  unfold authSrc; split <;> rfl

/-- The UID assignment does not change the nickname. -/
theorem authSrc_name (src0 : Client) (fresh : String) :
    (authSrc src0 fresh).name = src0.name := by
  unfold authSrc; split <;> rfl

/-- Reduction of `mr_authenticate` on the continuation path. -/
theorem mr_authenticate_eq_cont (st : IrcState) (srcCid : Nat) (param fresh : String)
    (now : Nat) (src0 : Client) (i : Nat) (sess : Session)
    (hsrc : findClientByCid st.clients srcCid = some src0)
    (hcap : src0.hasCapSasl = true)
    (hstar : param ≠ "*")
    (hfind : sasl_find_session st.sessions srcCid = some (i, sess)) :
    mr_authenticate st srcCid param fresh now =
      authCont { st with clients := authClients st src0 srcCid fresh }
        (authSrc src0 fresh) param i sess := by
  unfold mr_authenticate
  rw [hsrc, hfind]
  show (if src0.hasCapSasl = false then (st, []) else if param = "*" then authAbort st src0
    else authCont { st with clients := authClients st src0 srcCid fresh }
      (authSrc src0 fresh) param i sess) = _
  rw [if_neg (by simp [hcap]), if_neg hstar]

/-- Reduction of `mr_authenticate` on the session-opening path. -/
theorem mr_authenticate_eq_start (st : IrcState) (srcCid : Nat) (param fresh : String)
    (now : Nat) (src0 : Client)
    (hsrc : findClientByCid st.clients srcCid = some src0)
    (hcap : src0.hasCapSasl = true)
    (hstar : param ≠ "*")
    (hfind : sasl_find_session st.sessions srcCid = none) :
    mr_authenticate st srcCid param fresh now =
      authStart { st with clients := authClients st src0 srcCid fresh }
        (authSrc src0 fresh) param now := by
  unfold mr_authenticate
  rw [hsrc, hfind]
  show (if src0.hasCapSasl = false then (st, []) else if param = "*" then authAbort st src0
    else authStart { st with clients := authClients st src0 srcCid fresh }
      (authSrc src0 fresh) param now) = _
  rw [if_neg (by simp [hcap]), if_neg hstar]

/-- Claim C2 (amended): with a session at 20 relayed continuations, the
next (21st) client continuation elicits numeric 904 with body
`:SASL message limit exceeded`, a services `D A` when an agent is bound,
and clears the session; at 19 relayed continuations the next (20th) is
relayed to services as a `C` message and the session is retained with the
counter bumped. -/
theorem authenticate_message_budget (st : IrcState) (srcCid : Nat)
    (param fresh : String) (now : Nat) (src0 : Client) (i : Nat) (sess : Session)
    (hsrc : findClientByCid st.clients srcCid = some src0)
    (hcap : src0.hasCapSasl = true)
    (hstar : param ≠ "*")
    (hfind : sasl_find_session st.sessions srcCid = some (i, sess)) :
    (sess.messages = SASL_MAX_MESSAGES →
      Output.numeric src0.cid 904 (limitBody src0.name) ∈
          (mr_authenticate st srcCid param fresh now).2 ∧
        (sess.agent ≠ "" →
          Output.toServers (saslAbortLine (authSrc src0 fresh).id sess.agent) ∈
            (mr_authenticate st srcCid param fresh now).2) ∧
        (mr_authenticate st srcCid param fresh now).1.sessions =
          st.sessions.set i Session.cleared) ∧
    (sess.messages = SASL_MAX_MESSAGES - 1 →
      (mr_authenticate st srcCid param fresh now).2 =
          [Output.toServers (saslContLine (authSrc src0 fresh).id
            (if sess.agent ≠ "" then sess.agent else "*") param)] ∧
        (mr_authenticate st srcCid param fresh now).1.sessions =
          st.sessions.set i { sess with messages := sess.messages + 1 }) := by
  rw [mr_authenticate_eq_cont st srcCid param fresh now src0 i sess hsrc hcap hstar hfind]
  unfold authCont
  constructor
  · intro h20
    rw [if_pos (by rw [h20]; decide)]
    refine ⟨by simp [authSrc_cid, authSrc_name], ?_, rfl⟩
    intro hag
    rw [if_pos hag]
    simp
  · intro h19
    rw [if_neg (by rw [h19]; decide)]
    exact ⟨rfl, rfl⟩

set_option maxRecDepth 8192 in
/-- Claim C2 counterexample: on the 21st continuation the 904 numeric
carries the body `:SASL message limit exceeded`, not
`:SASL authentication failed` as the claim states. -/
theorem authenticate_21st_body_not_failed :
    Output.numeric alice.cid 904 (limitBody alice.name) ∈
        (mr_authenticate (stAlice 20 0) 1 "Zm9v" "X" 9).2 ∧
      Output.numeric alice.cid 904 (failedBody alice.name) ∉
        (mr_authenticate (stAlice 20 0) 1 "Zm9v" "X" 9).2 := by
  decide

set_option maxRecDepth 8192 in
/-- Witness for the amended C2: alice's session at the message cap. -/
theorem authenticate_message_budget_witness :
    ((aliceSession 20 0).messages = SASL_MAX_MESSAGES →
      Output.numeric alice.cid 904 (limitBody alice.name) ∈
          (mr_authenticate (stAlice 20 0) 1 "Zm9v" "X" 9).2 ∧
        ((aliceSession 20 0).agent ≠ "" →
          Output.toServers (saslAbortLine (authSrc alice "X").id (aliceSession 20 0).agent) ∈
            (mr_authenticate (stAlice 20 0) 1 "Zm9v" "X" 9).2) ∧
        (mr_authenticate (stAlice 20 0) 1 "Zm9v" "X" 9).1.sessions =
          (stAlice 20 0).sessions.set 0 Session.cleared) ∧
    ((aliceSession 20 0).messages = SASL_MAX_MESSAGES - 1 →
      (mr_authenticate (stAlice 20 0) 1 "Zm9v" "X" 9).2 =
          [Output.toServers (saslContLine (authSrc alice "X").id
            (if (aliceSession 20 0).agent ≠ "" then (aliceSession 20 0).agent else "*") "Zm9v")] ∧
        (mr_authenticate (stAlice 20 0) 1 "Zm9v" "X" 9).1.sessions =
          (stAlice 20 0).sessions.set 0 { aliceSession 20 0 with
            messages := (aliceSession 20 0).messages + 1 }) :=
  authenticate_message_budget (stAlice 20 0) 1 "Zm9v" "X" 9 alice 0 (aliceSession 20 0)
    (by decide) (by decide) (by decide) (by decide)

/-! ### Claim C7 -/

/-- `findClientByCid` after `updateClient` with a cid-preserving update
finds the updated record. -/
theorem findClientByCid_updateClient (cs : List Client) (cid : Nat) (f : Client → Client)
    (hcid : ∀ c, (f c).cid = c.cid) :
    findClientByCid (updateClient cs cid f) cid =
      (findClientByCid cs cid).map (fun c => if c.cid = cid then f c else c) := by
  unfold findClientByCid updateClient
  exact find_pred_map _ _ (fun c => by by_cases hc : c.cid = cid <;> simp [hc, hcid]) cs

/-- A full table makes `authStart` fail with numeric 904 and no other
effect. -/
theorem authStart_full (st : IrcState) (src : Client) (param : String) (now : Nat)
    (hfull : ∀ s ∈ st.sessions, s.client ≠ none) :
    authStart st src param now = (st, [Output.numeric src.cid 904 (failedBody src.name)]) := by
  unfold authStart
  rw [show sasl_new_session st.sessions src.cid now = none from
    newSessionAux_full st.sessions hfull]

/-- Claim C7: with all 256 slots occupied, a mechanism-selection
`AUTHENTICATE` from a client without a session emits only numeric 904
(`:SASL authentication failed`), emits no services messages, leaves the
session table unchanged, and leaves the client connected. -/
theorem authenticate_table_full (st : IrcState) (srcCid : Nat) (param fresh : String)
    (now : Nat) (src0 : Client)
    (hsrc : findClientByCid st.clients srcCid = some src0)
    (hcap : src0.hasCapSasl = true)
    (hstar : param ≠ "*")
    (hlen : st.sessions.length = SASL_MAX_SESSIONS)
    (hfull : ∀ s ∈ st.sessions, s.client ≠ none)
    (hfind : sasl_find_session st.sessions srcCid = none) :
    (mr_authenticate st srcCid param fresh now).2 =
        [Output.numeric src0.cid 904 (failedBody src0.name)] ∧
      (∀ line, Output.toServers line ∉ (mr_authenticate st srcCid param fresh now).2) ∧
      (mr_authenticate st srcCid param fresh now).1.sessions = st.sessions ∧
      ∃ c, findClientByCid (mr_authenticate st srcCid param fresh now).1.clients srcCid =
        some c := by
  rw [mr_authenticate_eq_start st srcCid param fresh now src0 hsrc hcap hstar hfind,
    authStart_full { st with clients := authClients st src0 srcCid fresh }
      (authSrc src0 fresh) param now hfull]
  refine ⟨by rw [authSrc_cid, authSrc_name], ?_, rfl, ?_⟩
  · intro line
    simp
  · show ∃ c, findClientByCid (authClients st src0 srcCid fresh) srcCid = some c
    unfold authClients
    by_cases h0 : src0.id = ""
    · rw [if_pos h0, findClientByCid_updateClient st.clients srcCid
        (fun c => { c with id := fresh }) (fun c => rfl), hsrc]
      exact ⟨_, rfl⟩
    · rw [if_neg h0, hsrc]
      exact ⟨src0, rfl⟩

/-- A fully occupied 256-slot table (clients distinct from alice). -/
def fullTable : List Session :=
  (List.range SASL_MAX_SESSIONS).map (fun k => { Session.cleared with client := some (k + 100) })

/-- State with a full session table and alice connected without a session. -/
def stFull : IrcState :=
  { sessions := fullTable, clients := [alice], capRegistered := true
    capMechs := some "PLAIN" }

set_option maxRecDepth 8192 in
/-- Witness for C7: the 257th session-opening client on a full table. -/
theorem authenticate_table_full_witness :
    (mr_authenticate stFull 1 "PLAIN" "X" 9).2 =
        [Output.numeric alice.cid 904 (failedBody alice.name)] ∧
      (∀ line, Output.toServers line ∉ (mr_authenticate stFull 1 "PLAIN" "X" 9).2) ∧
      (mr_authenticate stFull 1 "PLAIN" "X" 9).1.sessions = stFull.sessions ∧
      ∃ c, findClientByCid (mr_authenticate stFull 1 "PLAIN" "X" 9).1.clients 1 = some c :=
  authenticate_table_full stFull 1 "PLAIN" "X" 9 alice
    (by decide) (by decide) (by decide) (by decide) (by decide) (by decide)

end Sasl
